import Mathlib

/-!
Verification of the household inventory application (src/app.py) against its
natural-language specification.  The Python program is shallowly embedded:
the Supabase table becomes an explicit `Store` value, the Streamlit script
handlers become pure state-passing functions, and the PostgREST calls the
handlers issue (select/order, insert, update-by-id, delete-by-id) are given
their table semantics.
-/

namespace HouseholdInventory

/-- One row of the `household_inventory` table: `id` and `created_at` are
assigned by the store, the other columns come from the add form.  The
`quantity` column is a database integer, so it is modelled as `Int`. -/
structure Item where
  id : Nat
  category : String
  itemName : String
  quantity : Int
  notes : String
  created_at : Nat
deriving Repr, DecidableEq

/-- The remote table together with the monotone counters the store uses to
assign `id` and `created_at` to inserted rows. -/
structure Store where
  rows : List Item
  nextId : Nat
  nextTime : Nat
deriving Repr, DecidableEq

/-- Semantics of `table.insert(data).execute()`: the row is appended with a
fresh store-assigned `id` and `created_at`. -/
def insertRow (s : Store) (category nm : String) (quantity : Int) (notes : String) : Store :=
  { rows := s.rows ++ [{ id := s.nextId, category := category, itemName := nm,
                         quantity := quantity, notes := notes, created_at := s.nextTime }],
    nextId := s.nextId + 1,
    nextTime := s.nextTime + 1 }

/-- Semantics of `table.update({quantity: q}).eq("id", item_id).execute()`:
every row whose `id` matches gets the new quantity; no row is added or
removed, and a missing id matches nothing. -/
def updateRowQuantity (s : Store) (item_id : Nat) (q : Int) : Store :=
  { s with rows := s.rows.map (fun r => if r.id = item_id then { r with quantity := q } else r) }

/-- Semantics of `table.delete().eq("id", item_id).execute()`: rows whose
`id` matches are removed, all other rows are kept. -/
def deleteRowById (s : Store) (item_id : Nat) : Store :=
  { s with rows := s.rows.filter (fun r => r.id != item_id) }

/-- The comparison used by `select("*").order("created_at", desc=True)`. -/
def byCreatedDesc (a b : Item) : Bool := b.created_at ≤ a.created_at

/-- `load_data` from app.py: select all rows ordered by `created_at`
descending. -/
def load_data (s : Store) : List Item := s.rows.mergeSort byCreatedDesc

/-- Outcome of one Streamlit mutation handler: the store afterwards and the
`st.error` messages the handler emitted (the handlers in app.py discard the
PostgREST response, so no handler ever emits one). -/
structure MutationResult where
  store : Store
  errors : List String
deriving Repr, DecidableEq

/-- `update_quantity(item_id, current_quantity, change)` from app.py:
`new_quantity = max(0, current_quantity + change)` is written back by id;
the response is discarded and the page just reruns, so no error message is
ever produced. -/
def update_quantity (s : Store) (item_id : Nat) (current_quantity change : Int) : MutationResult :=
  let new_quantity := max 0 (current_quantity + change)
  { store := updateRowQuantity s item_id new_quantity, errors := [] }

/-- `delete_item(item_id)` from app.py: delete by id, discard the response,
rerun; no error message is ever produced. -/
def delete_item (s : Store) (item_id : Nat) : MutationResult :=
  { store := deleteRowById s item_id, errors := [] }

/-- `st.number_input` with `min_value`: the widget only ever yields a value
that is at least the minimum, so a smaller attempted value yields no
submittable widget value. -/
def number_input (min_value value : Int) : Option Int :=
  if min_value ≤ value then some value else none

/-- The add-form submit handler from app.py.  The quantity widget is
`st.number_input(min_value=1)`; the handler body runs on
`if submitted and name:` (so an empty name inserts nothing), chooses
`new_category if new_category else category`, and inserts the row. -/
def add_form (s : Store) (category new_category nm : String) (quantityInput : Int)
    (notes : String) (submitted : Bool) : Store :=
  match number_input 1 quantityInput with
  | none => s
  | some quantity =>
    if submitted && (nm != "") then
      let final_category := if new_category != "" then new_category else category
      insertRow s final_category nm quantity notes
    else s

/-- One cookie held by the client, as written through the CookieManager:
a key, a value, and the expires_at stamp (in days). -/
structure Cookie where
  key : String
  value : String
  expiresAt : Nat
deriving Repr, DecidableEq

/-- cookie_manager.get(k): value of the cookie with key k, if present. -/
def getCookie (cs : List Cookie) (k : String) : Option String :=
  (cs.find? (fun c => c.key == k)).map Cookie.value

/-- cookie_manager.set(k, v, expires_at): replaces any cookie with key k. -/
def setCookie (cs : List Cookie) (k v : String) (expiresAt : Nat) : List Cookie :=
  ⟨k, v, expiresAt⟩ :: cs.filter (fun c => c.key != k)

/-- cookie_manager.delete(k): removes the cookie with key k. -/
def deleteCookie (cs : List Cookie) (k : String) : List Cookie :=
  cs.filter (fun c => c.key != k)

/-- The state the auth flow reads and writes: the client cookie jar, the
st.session_state.auth_success flag, and the st.error messages shown. -/
structure AuthState where
  cookies : List Cookie
  auth_success : Bool
  errors : List String
deriving Repr, DecidableEq

/-- SESSION_TOKEN from check_password: the fixed string auth_ followed by the
configured password itself, with no salt and no hash. -/
def SESSION_TOKEN (correct_password : String) : String := "auth_" ++ correct_password

/-- What the gate decides for a visit: render the app, or render the password
prompt and stop. -/
inductive GateResult
  | authorized
  | prompt
deriving Repr, DecidableEq

/-- The decision logic of check_password once the configured password is in
hand: a cookie equal to SESSION_TOKEN authorizes at once; otherwise the
auth_success flag from this session decides, and a visitor with neither is
shown the password prompt. -/
def check_password (st : AuthState) (correct_password : String) : GateResult :=
  if getCookie st.cookies "auth_token" = some (SESSION_TOKEN correct_password) then .authorized
  else if st.auth_success then .authorized
  else .prompt

/-- The password_entered callback: on a match, set auth_success and persist
the token cookie for 30 days from now; on a mismatch, clear auth_success and
show the error message. -/
def password_entered (st : AuthState) (correct_password password_input : String)
    (now : Nat) : AuthState :=
  if password_input = correct_password then
    { st with auth_success := true,
              cookies := setCookie st.cookies "auth_token"
                (SESSION_TOKEN correct_password) (now + 30) }
  else
    { st with auth_success := false, errors := st.errors ++ ["パスワードが違います"] }

/-- The logout button handler: delete the auth_token cookie and clear
auth_success. -/
def logout (st : AuthState) : AuthState :=
  { st with cookies := deleteCookie st.cookies "auth_token", auth_success := false }

/-- A sequence of password submissions folded through password_entered. -/
def submitAttempts (st : AuthState) (correct_password : String) (inputs : List String)
    (now : Nat) : AuthState :=
  inputs.foldl (fun s i => password_entered s correct_password i now) st

/-- Where the configured app password may come from: st.secrets and the
process environment. -/
structure PasswordConfig where
  secretsPassword : Option String
  envPassword : Option String
deriving Repr, DecidableEq

/-- Python truthiness test used by the source on optional strings: absent or
empty is falsy. -/
def pyFalsy : Option String → Bool
  | none => true
  | some s => s == ""

/-- The configured-password lookup at the top of check_password: st.secrets
first; on KeyError or FileNotFoundError fall back to the environment, and if
that is missing or empty, st.warning plus st.stop halt the script (error).  -/
def lookup_app_password (c : PasswordConfig) : Except Unit String :=
  match c.secretsPassword with
  | some p => .ok p
  | none =>
    match c.envPassword with
    | none => .error ()
    | some p => if p == "" then .error () else .ok p

/-- check_password including the configured-password lookup: with no secret
configured the script halts before any gate decision is rendered. -/
def check_password_script (pc : PasswordConfig) (st : AuthState) : Except Unit GateResult :=
  match lookup_app_password pc with
  | .error () => .error ()
  | .ok pw => .ok (check_password st pw)

/-- Where the Supabase credentials may come from: the environment and
st.secrets. -/
structure StoreConfig where
  envUrl : Option String
  envKey : Option String
  secretsUrl : Option String
  secretsKey : Option String
deriving Repr, DecidableEq

/-- init_connection from app.py: read SUPABASE_URL and SUPABASE_KEY from the
environment; if the url is falsy, read both from st.secrets, and on
FileNotFoundError or KeyError show st.error and st.stop (error).  On success
it returns the url and key handed to create_client. -/
def init_connection (c : StoreConfig) : Except Unit (Option String × Option String) :=
  if pyFalsy c.envUrl then
    match c.secretsUrl, c.secretsKey with
    | some u, some k => .ok (some u, some k)
    | _, _ => .error ()
  else .ok (c.envUrl, c.envKey)

/-- Invariant of the embedded store: assigned created_at stamps are below the
next stamp to be assigned, and strictly increase along the row list.  It
holds for the empty store and is preserved by every operation. -/
def WF (s : Store) : Prop :=
  (∀ r ∈ s.rows, r.created_at < s.nextTime) ∧
    s.rows.Pairwise (fun a b => a.created_at < b.created_at)

/-- x appears strictly before y in the list l. -/
def beforeIn (l : List Item) (x y : Item) : Prop :=
  ∃ (i j : Nat) (hi : i < l.length) (hj : j < l.length),
    i < j ∧ l[i] = x ∧ l[j] = y

end HouseholdInventory

namespace HouseholdInventory

/-- Claim C1: for every inventory item with current quantity q and every
integer delta, the quantity-adjust operation writes the new quantity
max(0, q + delta) to the targeted item, so the stored quantity is never
negative; in particular decrementing an item already at 0 leaves it at 0. -/
theorem C1_update_clamps_at_zero (s : Store) (item_id : Nat) (q δ : Int)
    (hq : 0 ≤ q) (r : Item)
    (hr : r ∈ (update_quantity s item_id q δ).store.rows) (hid : r.id = item_id) :
    r.quantity = max 0 (q + δ) ∧ 0 ≤ r.quantity ∧
      (q = 0 → δ = -1 → r.quantity = 0) := by
  simp only [update_quantity, updateRowQuantity, List.mem_map] at hr
  obtain ⟨r₀, hr₀, rfl⟩ := hr
  by_cases h : r₀.id = item_id
  · rw [if_pos h]
    refine ⟨rfl, le_max_left 0 _, ?_⟩
    rintro rfl rfl
    rfl
  · rw [if_neg h] at hid ⊢
    exact absurd hid h

/-- Witness for C1 at a concrete store and input: decrementing the item with
quantity 0 keeps it at 0. -/
theorem C1_witness :
    (⟨7, "食料品", "soy", 0, "", 3⟩ : Item).quantity = max 0 ((0 : Int) + (-1)) ∧
      0 ≤ (⟨7, "食料品", "soy", 0, "", 3⟩ : Item).quantity := by
  have h := C1_update_clamps_at_zero ⟨[⟨7, "食料品", "soy", 0, "", 3⟩], 8, 4⟩ 7 0 (-1)
    (by decide) ⟨7, "食料品", "soy", 0, "", 3⟩ (by decide) rfl
  exact ⟨h.1, h.2.1⟩

/-- Deleting a cookie really removes it: looking it up afterwards finds
nothing. -/
theorem getCookie_deleteCookie (cs : List Cookie) (k : String) :
    getCookie (deleteCookie cs k) k = none := by
  unfold getCookie deleteCookie
  rw [List.find?_eq_none.mpr]
  · rfl
  · intro c hc
    have h := (List.mem_filter.mp hc).2
    simpa using h

/-- Claim C3: a visitor presenting a persisted auth_token equal to the derived
value — the fixed, deterministic, non-salted, non-hashed string auth_ followed
by the configured secret, stored under cookie key auth_token with a 30-day
expiry — is authorized silently, without being re-prompted for the
password. -/
theorem C3_token_silent_auth (st : AuthState) (pw : String) (now : Nat)
    (h : getCookie st.cookies "auth_token" = some (SESSION_TOKEN pw)) :
    check_password st pw = .authorized ∧
    SESSION_TOKEN pw = "auth_" ++ pw ∧
    (password_entered st pw pw now).cookies =
      setCookie st.cookies "auth_token" ("auth_" ++ pw) (now + 30) := by
  refine ⟨?_, rfl, ?_⟩
  · simp [check_password, h]
  · simp [password_entered, SESSION_TOKEN]

/-- Witness for C3: a concrete visitor holding the cookie auth_pw for secret
pw is authorized. -/
theorem C3_witness :
    check_password ⟨[⟨"auth_token", "auth_pw", 50⟩], false, []⟩ "pw" = .authorized ∧
    SESSION_TOKEN "pw" = "auth_" ++ "pw" := by
  have h := C3_token_silent_auth ⟨[⟨"auth_token", "auth_pw", 50⟩], false, []⟩ "pw" 0
    (by decide)
  exact ⟨h.1, h.2.1⟩

/-- Claim C4: submitting the configured secret authenticates; submitting
anything else leaves the session unauthenticated and surfaces a visible
error; and no number of incorrect attempts prevents a subsequent correct
attempt from authenticating. -/
theorem C4_password_gate (st : AuthState) (pw input : String) (now : Nat)
    (wrongs : List String) (hw : ∀ w ∈ wrongs, w ≠ pw) :
    (input = pw → (password_entered st pw input now).auth_success = true) ∧
    (input ≠ pw →
      (password_entered st pw input now).auth_success = false ∧
      (password_entered st pw input now).errors = st.errors ++ ["パスワードが違います"] ∧
      (getCookie st.cookies "auth_token" = none →
        check_password (password_entered st pw input now) pw = .prompt)) ∧
    (password_entered (submitAttempts st pw wrongs now) pw pw now).auth_success = true := by
  refine ⟨fun h => by simp [password_entered, h], fun h => ?_, by simp [password_entered]⟩
  refine ⟨by simp [password_entered, h], by simp [password_entered, h], fun hc => ?_⟩
  simp [check_password, password_entered, h, hc]

/-- Witness for C4: two failed attempts with other strings, then the correct
secret, authenticate a concrete fresh session. -/
theorem C4_witness :
    ("x" : String) ≠ "pw" ∧
    (password_entered (submitAttempts ⟨[], false, []⟩ "pw" ["x", "y"] 0) "pw" "pw" 0).auth_success
      = true := by
  have h := C4_password_gate ⟨[], false, []⟩ "pw" "bad" 0 ["x", "y"] (by decide)
  exact ⟨by decide, h.2.2⟩

/-- Claim C10: a failed password attempt writes no auth_token cookie and
leaves no persisted authentication state: the cookie jar is unchanged and
auth_success is false, the token being issued only in the matching branch. -/
theorem C10_failed_attempt_writes_no_token (st : AuthState) (pw input : String) (now : Nat)
    (h : input ≠ pw) :
    (password_entered st pw input now).cookies = st.cookies ∧
    (password_entered st pw input now).auth_success = false := by
  simp [password_entered, h]

/-- Witness for C10 at a concrete state and wrong password. -/
theorem C10_witness :
    (password_entered ⟨[], false, []⟩ "pw" "bad" 0).cookies = [] ∧
    (password_entered ⟨[], false, []⟩ "pw" "bad" 0).auth_success = false :=
  C10_failed_attempt_writes_no_token ⟨[], false, []⟩ "pw" "bad" 0 (by decide)

/-- Claim C2 counterexample: logout erases the persisted cookie, yet a
visitor presenting the very same token value afterwards is authorized again,
because acceptance is a stateless equality test against the value derived
from the secret alone — so the claim that the token value is never again
accepted after logout is false. -/
theorem C2_counterexample :
    getCookie (logout ⟨[⟨"auth_token", "auth_pw", 100⟩], true, []⟩).cookies "auth_token"
      = none ∧
    check_password { logout ⟨[⟨"auth_token", "auth_pw", 100⟩], true, []⟩ with
      cookies := [⟨"auth_token", "auth_pw", 101⟩] } "pw" = .authorized := by
  decide

/-- Claim C2 (amended): logout deletes the persisted auth_token cookie and
clears auth_success, returning the session from Authenticated to
Unauthenticated (the gate prompts again); but token acceptance remains a
stateless equality test against the value derived from the configured secret,
so a visitor presenting the same token value again is authorized again. -/
theorem C2_logout_erases_token (st : AuthState) (pw : String)
    (h : st.auth_success = true) :
    getCookie (logout st).cookies "auth_token" = none ∧
    (logout st).auth_success = false ∧
    check_password (logout st) pw = .prompt ∧
    (∀ cs : List Cookie, getCookie cs "auth_token" = some (SESSION_TOKEN pw) →
      check_password { logout st with cookies := cs } pw = .authorized) := by
  refine ⟨getCookie_deleteCookie st.cookies "auth_token", rfl, ?_, fun cs hc => ?_⟩
  · simp [check_password, logout, getCookie_deleteCookie]
  · simp [check_password, hc]

/-- Witness for C2 (amended) at a concrete authenticated state. -/
theorem C2_witness :
    getCookie (logout ⟨[⟨"auth_token", "auth_pw", 100⟩], true, []⟩).cookies "auth_token"
      = none ∧
    (logout ⟨[⟨"auth_token", "auth_pw", 100⟩], true, []⟩).auth_success = false := by
  have h := C2_logout_erases_token ⟨[⟨"auth_token", "auth_pw", 100⟩], true, []⟩ "pw" rfl
  exact ⟨h.1, h.2.1⟩

/-- Claim C5: with no access secret configured the script halts (fatal
configuration error) and serves no gate decision at all; likewise
init_connection halts when the store credentials are absent from both the
environment and st.secrets. -/
theorem C5_missing_config_halts (pc : PasswordConfig) (sc : StoreConfig)
    (hp : pc.secretsPassword = none) (hpe : pyFalsy pc.envPassword = true)
    (hu : pyFalsy sc.envUrl = true)
    (hsk : sc.secretsUrl = none ∨ sc.secretsKey = none) :
    lookup_app_password pc = .error () ∧
    (∀ st : AuthState, check_password_script pc st = .error ()) ∧
    init_connection sc = .error () := by
  have hl : lookup_app_password pc = .error () := by
    unfold lookup_app_password
    rw [hp]
    cases hep : pc.envPassword with
    | none => rfl
    | some p =>
      rw [hep] at hpe
      simp only [pyFalsy] at hpe
      simp [hpe]
  refine ⟨hl, fun st => ?_, ?_⟩
  · unfold check_password_script
    rw [hl]
  · unfold init_connection
    rw [if_pos hu]
    rcases hsk with h | h
    · rw [h]
    · rw [h]
      cases sc.secretsUrl <;> rfl

/-- Witness for C5: fully absent configuration halts both lookups. -/
theorem C5_witness :
    lookup_app_password ⟨none, none⟩ = .error () ∧
    init_connection ⟨none, none, none, none⟩ = .error () := by
  have h := C5_missing_config_halts ⟨none, none⟩ ⟨none, none, none, none⟩
    rfl rfl rfl (Or.inl rfl)
  exact ⟨h.1, h.2.2⟩

/-- Claim C8 counterexample: the store holds no row with id 5, yet the
update handler returns the store unchanged with an empty error list — the
NotFound condition is silently swallowed, not surfaced, so the claim that it
is surfaced to the caller is false. -/
theorem C8_counterexample :
    (Store.mk [] 0 0).rows = [] ∧
    update_quantity (Store.mk [] 0 0) 5 1 (-1) = ⟨Store.mk [] 0 0, []⟩ := by
  decide

/-- Claim C8 (amended): an update targeting an id absent from the store is
silently swallowed: the store is unchanged and no error is surfaced, because
the handler discards the response and reruns the page. -/
theorem C8_update_absent_id_silent (s : Store) (item_id : Nat) (q δ : Int)
    (h : ∀ r ∈ s.rows, r.id ≠ item_id) :
    (update_quantity s item_id q δ).store = s ∧
    (update_quantity s item_id q δ).errors = [] := by
  refine ⟨?_, rfl⟩
  show updateRowQuantity s item_id _ = s
  unfold updateRowQuantity
  have hm : s.rows.map
      (fun r => if r.id = item_id then { r with quantity := max 0 (q + δ) } else r)
      = s.rows.map id := by
    apply List.map_congr_left
    intro r hr
    simp [h r hr]
  rw [hm, List.map_id]

/-- Witness for C8 (amended): updating id 5 in a one-row store holding only
id 3 changes nothing and surfaces nothing. -/
theorem C8_witness :
    (update_quantity ⟨[⟨3, "c", "n", 2, "", 0⟩], 4, 1⟩ 5 2 (-1)).store
      = ⟨[⟨3, "c", "n", 2, "", 0⟩], 4, 1⟩ ∧
    (update_quantity ⟨[⟨3, "c", "n", 2, "", 0⟩], 4, 1⟩ 5 2 (-1)).errors = [] :=
  C8_update_absent_id_silent ⟨[⟨3, "c", "n", 2, "", 0⟩], 4, 1⟩ 5 2 (-1) (by decide)

/-- Claim C9: deleting an id that is already absent is a benign no-op
success: the store, including every other row, is unchanged and no error is
surfaced. -/
theorem C9_delete_absent_id_noop (s : Store) (item_id : Nat)
    (h : ∀ r ∈ s.rows, r.id ≠ item_id) :
    (delete_item s item_id).store = s ∧
    (delete_item s item_id).errors = [] := by
  refine ⟨?_, rfl⟩
  show deleteRowById s item_id = s
  unfold deleteRowById
  have hf : s.rows.filter (fun r => r.id != item_id) = s.rows := by
    rw [List.filter_eq_self]
    intro r hr
    simpa using h r hr
  rw [hf]

/-- Witness for C9: deleting id 5 from a one-row store holding only id 3
changes nothing and surfaces nothing. -/
theorem C9_witness :
    (delete_item ⟨[⟨3, "c", "n", 2, "", 0⟩], 4, 1⟩ 5).store
      = ⟨[⟨3, "c", "n", 2, "", 0⟩], 4, 1⟩ ∧
    (delete_item ⟨[⟨3, "c", "n", 2, "", 0⟩], 4, 1⟩ 5).errors = [] :=
  C9_delete_absent_id_noop ⟨[⟨3, "c", "n", 2, "", 0⟩], 4, 1⟩ 5 (by decide)

/-- Claim C7: insert requires a non-empty name and quantity at least 1: a
submission with quantity 0 (below the number-input minimum) or with an empty
name creates no row, while a submission with quantity 1 and a non-empty name
creates a row, and the listing then contains a row carrying exactly the
submitted category, name, quantity and notes (with the store-assigned id and
created_at). -/
theorem C7_insert_validation (s : Store) (category nm notes : String)
    (h : nm ≠ "") :
    add_form s category "" nm 0 notes true = s ∧
    (∀ q : Int, add_form s category "" "" q notes true = s) ∧
    (⟨s.nextId, category, nm, 1, notes, s.nextTime⟩ : Item)
      ∈ load_data (add_form s category "" nm 1 notes true) := by
  refine ⟨rfl, ?_, ?_⟩
  · intro q
    by_cases hq : (1 : Int) ≤ q <;> simp [add_form, number_input, hq]
  · have hs : add_form s category "" nm 1 notes true = insertRow s category nm 1 notes := by
      simp [add_form, number_input, h]
    rw [hs]
    unfold load_data insertRow
    rw [List.mem_mergeSort]
    simp

/-- Witness for C7: inserting Soy Sauce with quantity 1 into the empty store
lists exactly that row. -/
theorem C7_witness :
    (⟨0, "食料品", "Soy Sauce", 1, "", 0⟩ : Item)
      ∈ load_data (add_form ⟨[], 0, 0⟩ "食料品" "" "Soy Sauce" 1 "" true) :=
  (C7_insert_validation ⟨[], 0, 0⟩ "食料品" "Soy Sauce" "" (by decide)).2.2

/-- The ordering used by the listing is transitive. -/
theorem byCreatedDesc_trans : ∀ a b c : Item,
    byCreatedDesc a b → byCreatedDesc b c → byCreatedDesc a c := by
  intro a b c h₁ h₂
  simp only [byCreatedDesc, decide_eq_true_eq] at *
  omega

/-- The ordering used by the listing is total. -/
theorem byCreatedDesc_total : ∀ a b : Item,
    byCreatedDesc a b || byCreatedDesc b a := by
  intro a b
  simp only [byCreatedDesc, Bool.or_eq_true, decide_eq_true_eq]
  omega

/-- The listing is a permutation of the stored rows. -/
theorem load_data_perm (s : Store) : (load_data s).Perm s.rows :=
  List.mergeSort_perm s.rows byCreatedDesc

/-- The listing is sorted by created_at descending (non-strictly). -/
theorem load_data_sorted (s : Store) :
    (load_data s).Pairwise (fun a b => b.created_at ≤ a.created_at) := by
  have h := List.sorted_mergeSort byCreatedDesc_trans byCreatedDesc_total s.rows
  exact h.imp (fun hab => by simpa [byCreatedDesc] using hab)

/-- On a well-formed store the listing is sorted strictly descending. -/
theorem load_data_sorted_strict (s : Store) (hWF : WF s) :
    (load_data s).Pairwise (fun a b => b.created_at < a.created_at) := by
  have hle := load_data_sorted s
  have hne : (load_data s).Pairwise (fun a b => a.created_at ≠ b.created_at) := by
    have h₁ : s.rows.Pairwise (fun a b => a.created_at ≠ b.created_at) :=
      hWF.2.imp (fun h => Nat.ne_of_lt h)
    exact ((List.Perm.pairwise_iff (fun h => Ne.symm h) (load_data_perm s)).mpr h₁)
  exact (hle.and hne).imp (fun h => Nat.lt_of_le_of_ne h.1 (Ne.symm h.2))

/-- Inserting preserves the store invariant. -/
theorem WF_insertRow (s : Store) (c n : String) (q : Int) (o : String) (hWF : WF s) :
    WF (insertRow s c n q o) := by
  obtain ⟨hb, hp⟩ := hWF
  constructor
  · intro r hr
    simp only [insertRow, List.mem_append, List.mem_singleton] at hr
    rcases hr with hr | rfl
    · exact Nat.lt_succ_of_lt (hb r hr)
    · exact Nat.lt_succ_self _
  · simp only [insertRow]
    rw [List.pairwise_append]
    refine ⟨hp, List.pairwise_singleton _ _, ?_⟩
    intro a ha b hb'
    simp only [List.mem_singleton] at hb'
    subst hb'
    exact hb a ha

/-- In a list sorted strictly descending by created_at, the item with the
larger created_at appears strictly before the other. -/
theorem beforeIn_of_pairwise (l : List Item) (x y : Item)
    (hp : l.Pairwise (fun a b => b.created_at < a.created_at))
    (hx : x ∈ l) (hy : y ∈ l) (hlt : y.created_at < x.created_at) :
    beforeIn l x y := by
  obtain ⟨i, hi, hxi⟩ := List.mem_iff_getElem.mp hx
  obtain ⟨j, hj, hyj⟩ := List.mem_iff_getElem.mp hy
  have hpg := List.pairwise_iff_getElem.mp hp
  rcases Nat.lt_trichotomy i j with h | h | h
  · exact ⟨i, j, hi, hj, h, hxi, hyj⟩
  · subst h
    rw [hxi] at hyj
    subst hyj
    exact absurd hlt (lt_irrefl _)
  · have hgt := hpg j i hj hi h
    rw [hxi, hyj] at hgt
    omega

/-- Claim C6: the listing returns the stored inventory items strictly
ordered by created_at descending (newest first); after an insert the new
item is included, after a delete every listed row differs from the deleted
id, and of two items inserted in sequence the second appears strictly before
the first. -/
theorem C6_list_ordering (s : Store) (hWF : WF s) (item_id : Nat)
    (c₁ c₂ n₁ n₂ o₁ o₂ : String) (q₁ q₂ : Int) :
    (load_data s).Perm s.rows ∧
    (load_data s).Pairwise (fun a b => b.created_at < a.created_at) ∧
    (⟨s.nextId, c₁, n₁, q₁, o₁, s.nextTime⟩ : Item)
      ∈ load_data (insertRow s c₁ n₁ q₁ o₁) ∧
    (∀ r ∈ load_data (deleteRowById s item_id), r.id ≠ item_id) ∧
    beforeIn (load_data (insertRow (insertRow s c₁ n₁ q₁ o₁) c₂ n₂ q₂ o₂))
      ⟨s.nextId + 1, c₂, n₂, q₂, o₂, s.nextTime + 1⟩
      ⟨s.nextId, c₁, n₁, q₁, o₁, s.nextTime⟩ := by
  refine ⟨load_data_perm s, load_data_sorted_strict s hWF, ?_, ?_, ?_⟩
  · unfold load_data insertRow
    rw [List.mem_mergeSort]
    simp
  · intro r hr
    have hr' : r ∈ (deleteRowById s item_id).rows := List.mem_mergeSort.mp hr
    simp only [deleteRowById, List.mem_filter] at hr'
    simpa using hr'.2
  · have hWF₂ : WF (insertRow (insertRow s c₁ n₁ q₁ o₁) c₂ n₂ q₂ o₂) :=
      WF_insertRow _ _ _ _ _ (WF_insertRow _ _ _ _ _ hWF)
    apply beforeIn_of_pairwise _ _ _ (load_data_sorted_strict _ hWF₂)
    · rw [load_data, List.mem_mergeSort]
      simp [insertRow]
    · rw [load_data, List.mem_mergeSort]
      simp [insertRow]
    · simp

/-- Witness for C6: inserting one item into the empty store lists it. -/
theorem C6_witness :
    (⟨0, "c", "n", 1, "", 0⟩ : Item) ∈ load_data (insertRow ⟨[], 0, 0⟩ "c" "n" 1 "") := by
  have hWF : WF ⟨[], 0, 0⟩ := ⟨by simp, List.Pairwise.nil⟩
  exact (C6_list_ordering ⟨[], 0, 0⟩ hWF 5 "c" "c2" "n" "n2" "" "" 1 1).2.2.1

end HouseholdInventory
